import Mathlib

/-!
Verification development for the pricebook search application (`app.py`).

The file shallowly embeds the three core functions of the program —
`load_and_combine_data`, `search_dataframe` and `get_gemini_answer` — and
proves or refutes the specification claims about them.

Modelling conventions:
* A pandas cell value is modelled by `Cell`: the string values, integer
  values and the NaN marker that arise from `pd.read_csv` in this program
  (floating point columns are not needed by any claim and are not modelled).
* A `DataFrame` is a list of column names together with a list of rows,
  each row a list of cells positionally aligned with the columns.
* The filesystem/parser behind `pd.read_csv` is passed explicitly as a
  function `String → ReadResult`, and Streamlit report calls
  (`st.warning` / `st.error`) are collected into an explicit list.
* Python `str.strip`, `str.lower` and `str` conversion are modelled by
  `pyStrip`, `pyLower` and `Cell.pyStr` (ASCII lowercasing, which is what
  the program's data exercises).
* pandas `Series.str.contains(pat)` uses `re.search` with `regex=True`
  (the default in the source).  The regular-expression fragment the
  development exercises is modelled exactly: patterns made of literal
  characters and the metacharacter `.` ; a pattern containing any other
  regex metacharacter is outside the modelled fragment (`compileChars`
  returns `none` and `reSearch` returns `false` there), and no theorem
  below depends on that branch: every general theorem about matching
  carries a metacharacter-free hypothesis, and every concrete input stays
  inside the modelled fragment.
-/

namespace Pricebook

/-- A pandas cell value as it occurs in this program: a string, an integer
(from `pd.read_csv` type inference on an all-numeric column), or the NaN
missing-value marker. -/
inductive Cell where
  | nan
  | str (s : String)
  | int (n : Int)
  deriving DecidableEq, Repr

/-- Model of Python `str(...)` / pandas `astype(str)` applied to one cell
(`astype(str)` renders NaN as the string "nan"). -/
def Cell.pyStr : Cell → String
  | Cell.nan => "nan"
  | Cell.str s => s
  | Cell.int n => toString n

/-- `true` iff the cell is a string value (and not NaN or a number). -/
def Cell.isStringCell : Cell → Bool
  | Cell.str _ => true
  | _ => false

/-- Model of `fillna('')` on one cell: the NaN marker becomes the empty
string, every other value is unchanged. -/
def Cell.fill : Cell → Cell
  | Cell.nan => Cell.str ""
  | c => c

/-- A pandas DataFrame: named columns and positional rows. -/
structure DataFrame where
  cols : List String
  rows : List (List Cell)
  deriving DecidableEq, Repr

/-- `pd.DataFrame()`: the empty frame with no columns and no rows. -/
def DataFrame.emptyDf : DataFrame := ⟨[], []⟩

/-- pandas `DataFrame.empty`: true when either axis has length zero. -/
def DataFrame.pdEmpty (df : DataFrame) : Bool :=
  df.rows.isEmpty || df.cols.isEmpty

/-- `DataFrame.head n`: the first `n` rows. -/
def DataFrame.head (df : DataFrame) (n : Nat) : DataFrame :=
  ⟨df.cols, df.rows.take n⟩

/-- Value of column `name` in a row, by positional alignment with the column
list; NaN when the column is absent (as pandas reindexing produces). -/
def lookupCell : List String → List Cell → String → Cell
  | c :: cs, v :: vs, name => if c = name then v else lookupCell cs vs name
  | _, _, _ => Cell.nan

/-- Column union in first-appearance order, as `pd.concat` computes for
frames with differing columns. -/
def unionCols (dfs : List DataFrame) : List String :=
  dfs.foldl (fun acc df => acc ++ df.cols.filter (fun c => !(acc.contains c))) []

/-- Reindex one source row to the combined column list: cells of columns the
source lacks become NaN. -/
def reindexRow (allCols srcCols : List String) (row : List Cell) : List Cell :=
  allCols.map (lookupCell srcCols row)

/-- `pd.concat(all_data, ignore_index=True)`: union the columns and stack
every frame's rows in order, reindexed to the combined columns. -/
def pd_concat (dfs : List DataFrame) : DataFrame :=
  let cols := unionCols dfs
  ⟨cols, dfs.flatMap (fun df => df.rows.map (reindexRow cols df.cols))⟩

/-- `combined_df.fillna('')`: replace every NaN cell by the empty string. -/
def DataFrame.fillna (df : DataFrame) : DataFrame :=
  ⟨df.cols, df.rows.map (fun r => r.map Cell.fill)⟩

/-- Python `str.isspace` for the ASCII whitespace characters. -/
def pyIsSpace (c : Char) : Bool :=
  (c == ' ') || (c == '\t') || (c == '\n') || (c == '\r') || (c == '\x0b') || (c == '\x0c')

/-- Drop leading whitespace characters from a character list. -/
def dropLeadingSpaces : List Char → List Char
  | [] => []
  | c :: cs => if pyIsSpace c then dropLeadingSpaces cs else c :: cs

/-- Model of Python `str.strip()`: remove leading and trailing whitespace. -/
def pyStrip (s : String) : String :=
  String.mk (dropLeadingSpaces (dropLeadingSpaces s.data.reverse).reverse)

/-- Model of Python `str.lower()` on the ASCII range this program uses. -/
def pyLower (s : String) : String :=
  String.mk (s.data.map Char.toLower)

/-- One compiled atom of the modelled regular-expression fragment. -/
inductive RegexAtom where
  | lit (c : Char)
  | dot
  deriving DecidableEq

/-- The metacharacters of Python regular expressions. -/
def reMetachars : List Char :=
  ['.', '^', '$', '*', '+', '?', '\x7b', '\x7d', '[', ']', '\\', '|', '(', ')']

/-- Compile one pattern character: `.` is the any-character atom, any
non-metacharacter is a literal, any other metacharacter is outside the
modelled fragment. -/
def compileChar (c : Char) : Option RegexAtom :=
  if c = '.' then some RegexAtom.dot
  else if c ∈ reMetachars then none
  else some (RegexAtom.lit c)

/-- Compile a whole pattern, failing outside the modelled fragment. -/
def compileChars : List Char → Option (List RegexAtom)
  | [] => some []
  | c :: cs =>
    match compileChar c, compileChars cs with
    | some a, some as => some (a :: as)
    | _, _ => none

/-- Whether one atom matches one character (`.` matches anything except a
newline, as in `re` without DOTALL). -/
def atomMatch : RegexAtom → Char → Bool
  | RegexAtom.lit c, d => c == d
  | RegexAtom.dot, d => !(d == '\n')

/-- Whether the compiled pattern matches a prefix of the character list. -/
def matchesAt : List RegexAtom → List Char → Bool
  | [], _ => true
  | _ :: _, [] => false
  | a :: as, c :: cs => atomMatch a c && matchesAt as cs

/-- Model of `re.search(pat, s)` (as a Boolean): the pattern matches at some
start position of `s`.  Outside the modelled fragment the result is `false`
and no theorem depends on it. -/
def reSearch (pat s : String) : Bool :=
  match compileChars pat.data with
  | some atoms => (List.range (s.data.length + 1)).any (fun i => matchesAt atoms (s.data.drop i))
  | none => false

/-- pandas `Series.str.contains(pat)` on one element, with the source's
default `regex=True`: `re.search` of the pattern in the string. -/
def str_contains (s pat : String) : Bool := reSearch pat s

/-- The row predicate of `search_dataframe`:
`row.astype(str).str.lower().str.contains(query_lower).any()`. -/
def rowMatches (query_lower : String) (row : List Cell) : Bool :=
  row.any (fun cell => str_contains (pyLower cell.pyStr) query_lower)

/-- `search_dataframe(df, query)` from `app.py`: empty frame for a
whitespace-only query, otherwise the rows where some cell's lowercased
string form matches the lowercased query. -/
def search_dataframe (df : DataFrame) (query : String) : DataFrame :=
  if pyStrip query = "" then DataFrame.emptyDf
  else
    let query_lower := pyLower query
    ⟨df.cols, df.rows.filter (rowMatches query_lower)⟩

/-- Spec-side notion (from the specification's words, for comparison with
the source's behaviour): literal substring containment of `pat` in `s`. -/
def strContainsSub (s pat : String) : Bool :=
  (List.range (s.data.length + 1)).any
    (fun i => decide ((s.data.drop i).take pat.data.length = pat.data))

/-- Spec-side row predicate: some cell's lowercased string form contains the
lowercased query as a literal substring. -/
def rowMatchesSpec (row : List Cell) (query : String) : Bool :=
  row.any (fun cell => strContainsSub (pyLower cell.pyStr) (pyLower query))

/-- Outcome of one `pd.read_csv(file_path)` attempt: a parsed frame, the
`FileNotFoundError` branch, or any other exception with its message. -/
inductive ReadResult where
  | ok (df : DataFrame)
  | fileNotFound
  | otherError (msg : String)
  deriving DecidableEq, Repr

/-- `true` iff the read attempt produced a frame. -/
def ReadResult.isOk : ReadResult → Bool
  | ReadResult.ok _ => true
  | _ => false

/-- A Streamlit report emitted during loading: `st.warning` or `st.error`. -/
inductive Report where
  | warning (msg : String)
  | error (msg : String)
  deriving DecidableEq, Repr

/-- `true` iff the report is a non-fatal `st.warning`. -/
def Report.isWarning : Report → Bool
  | Report.warning _ => true
  | _ => false

/-- The `st.warning` text for a missing file. -/
def fnfMessage (file_path : String) : String :=
  "File not found: " ++ file_path ++ ". Please ensure all CSV files are in the same directory."

/-- The `st.error` text for any other per-file loading exception. -/
def loadErrMessage (file_path e : String) : String :=
  "Error loading " ++ file_path ++ ": " ++ e

/-- The `st.error` text when no source loaded at all. -/
def noDataMessage : String :=
  "No data loaded. Please check your CSV file paths and names."

/-- One iteration of the loading loop of `load_and_combine_data`: append the
parsed frame on success, otherwise record the warning or error and continue. -/
def loadStep (read_csv : String → ReadResult) (acc : List DataFrame × List Report)
    (file_path : String) : List DataFrame × List Report :=
  match read_csv file_path with
  | ReadResult.ok df => (acc.1 ++ [df], acc.2)
  | ReadResult.fileNotFound => (acc.1, acc.2 ++ [Report.warning (fnfMessage file_path)])
  | ReadResult.otherError e => (acc.1, acc.2 ++ [Report.error (loadErrMessage file_path e)])

/-- `load_and_combine_data(file_paths)` from `app.py`, with the filesystem
behind `pd.read_csv` passed as `read_csv` and the Streamlit reports returned
alongside the combined frame: each file is attempted in order, missing files
give a warning and other exceptions an error; with no successful source the
result is `pd.DataFrame()` plus the fatal report, otherwise the successful
frames are concatenated and NaN cells replaced by the empty string. -/
def load_and_combine_data (read_csv : String → ReadResult)
    (file_paths : List String) : DataFrame × List Report :=
  let r := file_paths.foldl (loadStep read_csv) ([], [])
  if r.1.isEmpty then
    (DataFrame.emptyDf, r.2 ++ [Report.error noDataMessage])
  else
    ((pd_concat r.1).fillna, r.2)

/-- The row cap `max_rows_for_gemini` of `get_gemini_answer`. -/
def max_rows_for_gemini : Nat := 10

/-- One pipe-separated table line. -/
def mdRow (cells : List String) : String :=
  "| " ++ String.intercalate " | " cells ++ " |"

/-- Model of `DataFrame.to_markdown(index=False)`: the header, a separator
line and every row in order.  The exact padding pandas delegates to the
tabulate library is not modelled; every theorem below depends only on which
rows are rendered, never on the padding. -/
def to_markdown (df : DataFrame) : String :=
  String.intercalate "\n"
    (mdRow df.cols :: mdRow (df.cols.map (fun _ => "---")) ::
      df.rows.map (fun r => mdRow (r.map Cell.pyStr)))

/-- The `results_str` built by `get_gemini_answer` for a non-empty result
frame: all rows when at most `max_rows_for_gemini`, otherwise the first
`max_rows_for_gemini` rows followed by the omitted-row indicator. -/
def build_results_str (search_results_df : DataFrame) : String :=
  if max_rows_for_gemini < search_results_df.rows.length then
    to_markdown (search_results_df.head max_rows_for_gemini) ++
      "\n... (and " ++ toString (search_results_df.rows.length - max_rows_for_gemini) ++
      " more results not shown due to length)"
  else
    to_markdown search_results_df

/-- The prompt `get_gemini_answer` sends: a no-data prompt for an empty
result frame, otherwise the query plus the capped `results_str`. -/
def gemini_prompt (query : String) (search_results_df : DataFrame) : String :=
  if search_results_df.pdEmpty then
    "The user searched for \x27" ++ query ++
      "\x27 but no relevant data was found in the pricebook. Please provide a helpful response indicating that no matching items were found."
  else
    "The user searched for \x27" ++ query ++
      "\x27 in a pricebook spreadsheet. Here are the relevant search results:\n\n" ++
      build_results_str search_results_df ++
      "\n\nBased on these results, please provide a concise and helpful answer to the user\x27s query. If the results contain pricing information, mention it clearly. If the results are unclear or incomplete for the query, state that you are providing information based on the available data. Focus on extracting key information like product names, descriptions, and prices if available."

/-- The fixed fallback string of the `except` branch of `get_gemini_answer`. -/
def fallback_message : String :=
  "Sorry, I couldn\x27t get an answer from Gemini at this moment."

/-- `get_gemini_answer(query, search_results_df)` from `app.py`, with the
`genai` call (prompt in, `response.text` out, any exception as `error`)
passed as `gemini`: the response text on success, the fixed fallback string
on any exception. -/
def get_gemini_answer (gemini : String → Except String String) (query : String)
    (search_results_df : DataFrame) : String :=
  match gemini (gemini_prompt query search_results_df) with
  | Except.ok text => text
  | Except.error _ => fallback_message

/-- The frames the loading loop accumulates: the successfully parsed frames
in path order. -/
def collectData (read_csv : String → ReadResult) (paths : List String) : List DataFrame :=
  paths.filterMap (fun p =>
    match read_csv p with
    | ReadResult.ok df => some df
    | _ => none)

/-- The Streamlit reports one path contributes during loading. -/
def reportsOf (read_csv : String → ReadResult) (p : String) : List Report :=
  match read_csv p with
  | ReadResult.ok _ => []
  | ReadResult.fileNotFound => [Report.warning (fnfMessage p)]
  | ReadResult.otherError e => [Report.error (loadErrMessage p e)]

/-- Concrete frame from the specification's worked example. -/
def dfExample : DataFrame :=
  ⟨["name", "price"],
    [[Cell.str "Endpoint Security", Cell.str "100"],
     [Cell.str "Network Security", Cell.str "250"]]⟩

/-- One-row frame whose only cell is the string "axb". -/
def dfRegexCE : DataFrame := ⟨["name"], [[Cell.str "axb"]]⟩

/-- One-row frame whose only cell is the whitespace-padded string " xyz ". -/
def dfWs : DataFrame := ⟨["name"], [[Cell.str " xyz "]]⟩

/-- Two-row frame distinguishing a query with a leading space. -/
def dfWs2 : DataFrame :=
  ⟨["name"], [[Cell.str "EndpointSecurity"], [Cell.str "Endpoint Security"]]⟩

/-- A fifteen-row frame, above the Gemini row cap. -/
def df15 : DataFrame := ⟨["Product"], List.replicate 15 [Cell.str "x"]⟩

/-- A three-row frame, below the Gemini row cap. -/
def df3 : DataFrame := ⟨["Product"], List.replicate 3 [Cell.str "x"]⟩

/-- A two-row source frame with a numeric Price column. -/
def dfA : DataFrame :=
  ⟨["Product", "Price"],
    [[Cell.str "Helix", Cell.int 10], [Cell.str "IVX", Cell.int 20]]⟩

/-- A filesystem on which every read parses a frame with an integer cell. -/
def read_csvNumeric : String → ReadResult :=
  fun _ => ReadResult.ok ⟨["Price"], [[Cell.int 100]]⟩

/-- A filesystem on which every read succeeds with `dfA`. -/
def read_csvAll : String → ReadResult := fun _ => ReadResult.ok dfA

/-- A filesystem on which every read raises `FileNotFoundError`. -/
def read_csvNone : String → ReadResult := fun _ => ReadResult.fileNotFound

/-- A filesystem on which exactly the path "missing.csv" is unreachable. -/
def read_csvOneMissing : String → ReadResult :=
  fun p => if p = "missing.csv" then ReadResult.fileNotFound else ReadResult.ok dfA

/-- A Gemini call that always fails with a timeout. -/
def geminiFail : String → Except String String := fun _ => Except.error "timeout"

/-- `List.any` only depends on the predicate's values on the list. -/
theorem any_eq_of_forall {α : Type} (l : List α) (f g : α → Bool)
    (h : ∀ a ∈ l, f a = g a) : l.any f = l.any g := by
  induction l with
  | nil => rfl
  | cons a l ih =>
    simp only [List.any_cons]
    rw [h a (by simp), ih (fun b hb => h b (by simp [hb]))]

/-- A pattern without metacharacters compiles to its literal atoms. -/
theorem compileChars_lits (cs : List Char) (h : ∀ c ∈ cs, c ∉ reMetachars) :
    compileChars cs = some (cs.map RegexAtom.lit) := by
  induction cs with
  | nil => rfl
  | cons c cs ih =>
    have hc : c ∉ reMetachars := h c (by simp)
    have hdot : ¬ c = '.' := by
      intro e
      exact hc (by rw [e]; decide)
    rw [List.map_cons, compileChars, compileChar, if_neg hdot, if_neg hc,
      ih (fun b hb => h b (by simp [hb]))]

/-- A sequence of literal atoms matches a prefix exactly when it is that
prefix. -/
theorem matchesAt_lits (pat : List Char) : ∀ s : List Char,
    matchesAt (pat.map RegexAtom.lit) s = decide (s.take pat.length = pat) := by
  induction pat with
  | nil => intro s; simp [matchesAt]
  | cons c cs ih =>
    intro s
    cases s with
    | nil => simp [matchesAt]
    | cons d ds =>
      rw [List.map_cons, matchesAt, ih ds]
      by_cases hcd : c = d
      · subst hcd
        simp [atomMatch]
      · simp [atomMatch, hcd, Ne.symm hcd]

/-- On metacharacter-free patterns the modelled `re.search` is literal
substring containment. -/
theorem reSearch_lits (pat s : String) (h : ∀ c ∈ pat.data, c ∉ reMetachars) :
    reSearch pat s = strContainsSub s pat := by
  unfold reSearch strContainsSub
  rw [compileChars_lits pat.data h]
  exact any_eq_of_forall _ _ _ (fun i _ => matchesAt_lits pat.data (s.data.drop i))

/-- On metacharacter-free lowercased queries the source's row predicate is
the specification's literal-containment row predicate. -/
theorem rowMatches_eq_spec (q : String) (r : List Cell)
    (h : ∀ c ∈ (pyLower q).data, c ∉ reMetachars) :
    rowMatches (pyLower q) r = rowMatchesSpec r q := by
  unfold rowMatches rowMatchesSpec str_contains
  exact any_eq_of_forall _ _ _
    (fun cell _ => reSearch_lits (pyLower q) (pyLower cell.pyStr) h)

/-- Unfolding the loading loop: the fold accumulates exactly the parsed
frames and the per-path reports. -/
theorem foldl_loadStep (read_csv : String → ReadResult) (paths : List String) :
    ∀ acc : List DataFrame × List Report,
      paths.foldl (loadStep read_csv) acc =
        (acc.1 ++ collectData read_csv paths,
          acc.2 ++ paths.flatMap (reportsOf read_csv)) := by
  induction paths with
  | nil => intro acc; simp [collectData]
  | cons p ps ih =>
    intro acc
    rw [List.foldl_cons, ih]
    cases hp : read_csv p <;>
      simp [loadStep, collectData, reportsOf, hp, List.filterMap_cons]

/-- `load_and_combine_data` in closed form. -/
theorem load_eq (read_csv : String → ReadResult) (paths : List String) :
    load_and_combine_data read_csv paths =
      if (collectData read_csv paths).isEmpty then
        (DataFrame.emptyDf,
          paths.flatMap (reportsOf read_csv) ++ [Report.error noDataMessage])
      else
        ((pd_concat (collectData read_csv paths)).fillna,
          paths.flatMap (reportsOf read_csv)) := by
  unfold load_and_combine_data
  rw [foldl_loadStep]
  simp

/-- When every path parses, the loop collects exactly those frames. -/
theorem collect_all_ok (read_csv : String → ReadResult) :
    ∀ (paths : List String) (dfs : List DataFrame),
      paths.map read_csv = dfs.map ReadResult.ok →
      collectData read_csv paths = dfs := by
  intro paths
  induction paths with
  | nil =>
    intro dfs h
    cases dfs with
    | nil => rfl
    | cons d ds => simp at h
  | cons p ps ih =>
    intro dfs h
    cases dfs with
    | nil => simp at h
    | cons d ds =>
      simp only [List.map_cons, List.cons.injEq] at h
      obtain ⟨h1, h2⟩ := h
      rw [collectData, List.filterMap_cons, h1]
      rw [collectData] at ih
      rw [ih ds h2]

/-- A skipped (missing) path contributes no frame to the collection. -/
theorem collect_skip (read_csv : String → ReadResult) (l1 l2 : List String)
    (p : String) (hp : read_csv p = ReadResult.fileNotFound) :
    collectData read_csv (l1 ++ p :: l2) = collectData read_csv (l1 ++ l2) := by
  simp [collectData, List.filterMap_append, List.filterMap_cons, hp]

/-- Paths that are not missing contribute no warnings. -/
theorem warnings_zero (read_csv : String → ReadResult) (l : List String)
    (h : ∀ q ∈ l, read_csv q ≠ ReadResult.fileNotFound) :
    ((l.flatMap (reportsOf read_csv)).countP (fun r => Report.isWarning r)) = 0 := by
  induction l with
  | nil => rfl
  | cons q qs ih =>
    rw [List.flatMap_cons, List.countP_append]
    have h1 : ((reportsOf read_csv q).countP (fun r => Report.isWarning r)) = 0 := by
      cases hq : read_csv q with
      | ok df => simp [reportsOf, hq]
      | fileNotFound => exact absurd hq (h q (by simp))
      | otherError e => simp [reportsOf, hq, List.countP_cons, Report.isWarning]
    rw [h1, ih (fun x hx => h x (by simp [hx]))]

/-- C1 counterexample: with query "a.b" the source's filter includes the row
["axb"] although no cell contains "a.b" as a literal substring — the filter
is regex containment (pandas default `regex=True`), not literal substring
containment, so the claim's iff fails as stated. -/
theorem search_regex_counterexample :
    (search_dataframe dfRegexCE "a.b").rows = [[Cell.str "axb"]] ∧
      rowMatchesSpec [Cell.str "axb"] "a.b" = false := by
  decide

/-- C1 (amended): for a query that is non-blank after stripping and whose
lowercasing contains no regular-expression metacharacter, a row is in the
search result exactly when it is a table row with at least one cell whose
lowercased string form contains the lowercased query as a literal
substring — the filter is sound and complete for such queries. -/
theorem search_literal_iff (df : DataFrame) (q : String) (r : List Cell)
    (h1 : ¬ pyStrip q = "") (h2 : ∀ c ∈ (pyLower q).data, c ∉ reMetachars) :
    r ∈ (search_dataframe df q).rows ↔ r ∈ df.rows ∧ rowMatchesSpec r q = true := by
  unfold search_dataframe
  rw [if_neg h1]
  show r ∈ df.rows.filter (rowMatches (pyLower q)) ↔ _
  rw [List.mem_filter, rowMatches_eq_spec q r h2]

/-- Witness for C1 at the specification's worked example: the query
"security" matches the Endpoint Security row. -/
theorem search_literal_iff_witness :
    [Cell.str "Endpoint Security", Cell.str "100"] ∈
      (search_dataframe dfExample "security").rows :=
  (search_literal_iff dfExample "security"
      [Cell.str "Endpoint Security", Cell.str "100"] (by decide) (by decide)).mpr
    ⟨by decide, by decide⟩

/-- C2 counterexample: loading a source whose Price column parsed as the
integer 100 leaves a non-string cell in the combined table — cell values
are not coerced to string at load time. -/
theorem load_numeric_cell_counterexample :
    (load_and_combine_data read_csvNumeric ["a.csv"]).1.rows.all
        (fun r => r.all (fun c => Cell.isStringCell c)) = false ∧
      (load_and_combine_data read_csvNumeric ["a.csv"]).1.rows = [[Cell.int 100]] := by
  decide

/-- C2 (amended): at load time `fillna` removes every NaN marker — no
missing/null cell survives into the combined table — while non-missing
cells keep their parsed type (numeric cells stay numeric); coercion to
string happens only at search time. -/
theorem load_no_nan (read_csv : String → ReadResult) (paths : List String) :
    ∀ r ∈ (load_and_combine_data read_csv paths).1.rows, ∀ c ∈ r, c ≠ Cell.nan := by
  intro r hr c hc
  rw [load_eq] at hr
  split at hr
  · simp [DataFrame.emptyDf] at hr
  · simp only [DataFrame.fillna, List.mem_map] at hr
    obtain ⟨r0, _, hrr⟩ := hr
    rw [← hrr] at hc
    rw [List.mem_map] at hc
    obtain ⟨c0, _, hcc⟩ := hc
    rw [← hcc]
    cases c0 <;> simp [Cell.fill]

/-- Witness for C2 (amended) at the numeric source: the loaded integer cell
is in the table and is not the NaN marker. -/
theorem load_no_nan_witness :
    [Cell.int 100] ∈ (load_and_combine_data read_csvNumeric ["a.csv"]).1.rows ∧
      Cell.int 100 ≠ Cell.nan :=
  ⟨by decide,
    load_no_nan read_csvNumeric ["a.csv"] [Cell.int 100] (by decide)
      (Cell.int 100) (by decide)⟩

/-- C3: for every table, a query that strips to the empty string — the
empty query or a whitespace-only query — short-circuits `search_dataframe`
to the empty frame (no rows, not all rows, and no error). -/
theorem search_blank_query (df : DataFrame) (q : String) (h : pyStrip q = "") :
    search_dataframe df q = DataFrame.emptyDf := by
  unfold search_dataframe
  rw [if_pos h]

/-- Witness for C3 at the whitespace query "   " on a concrete table. -/
theorem search_blank_query_witness :
    pyStrip "   " = "" ∧ search_dataframe dfExample "   " = DataFrame.emptyDf :=
  ⟨by decide, search_blank_query dfExample "   " (by decide)⟩

/-- C4: when the result frame exceeds the ten-row cap, `build_results_str`
renders exactly the first ten rows followed by an indicator of how many
rows were omitted; with at most ten rows it renders all rows with no
indicator. -/
theorem gemini_row_cap (df : DataFrame) :
    (max_rows_for_gemini < df.rows.length →
      (df.head max_rows_for_gemini).rows = df.rows.take 10 ∧
      (df.head max_rows_for_gemini).rows.length = 10 ∧
      build_results_str df =
        to_markdown (df.head max_rows_for_gemini) ++
          "\n... (and " ++ toString (df.rows.length - 10) ++
          " more results not shown due to length)") ∧
    (df.rows.length ≤ max_rows_for_gemini → build_results_str df = to_markdown df) := by
  constructor
  · intro h
    refine ⟨rfl, ?_, ?_⟩
    · have : max_rows_for_gemini = 10 := rfl
      simp only [DataFrame.head, List.length_take]
      omega
    · unfold build_results_str
      rw [if_pos h]
      rfl
  · intro h
    unfold build_results_str
    rw [if_neg (by omega)]

/-- Witness for C4: a fifteen-row frame forwards ten rows plus the
"5 more" indicator; a three-row frame forwards all rows unchanged. -/
theorem gemini_row_cap_witness :
    (max_rows_for_gemini < df15.rows.length ∧
        (df15.head max_rows_for_gemini).rows.length = 10 ∧
        toString (df15.rows.length - 10) = "5" ∧
        build_results_str df15 =
          to_markdown (df15.head max_rows_for_gemini) ++
            "\n... (and " ++ toString (df15.rows.length - 10) ++
            " more results not shown due to length)") ∧
      (df3.rows.length ≤ max_rows_for_gemini ∧
        build_results_str df3 = to_markdown df3) :=
  ⟨⟨by decide, ((gemini_row_cap df15).1 (by decide)).2.1, by decide,
      ((gemini_row_cap df15).1 (by decide)).2.2⟩,
    ⟨by decide, (gemini_row_cap df3).2 (by decide)⟩⟩

/-- C5: for every table and query, the rows of the search result are a
sublist — an order-preserving subsequence — of the table's rows. -/
theorem search_rows_sublist (df : DataFrame) (q : String) :
    List.Sublist (search_dataframe df q).rows df.rows := by
  unfold search_dataframe
  split
  · exact List.nil_sublist _
  · exact List.filter_sublist _

/-- C6: when every source loads successfully, the combined table stacks
each source's rows in source-list order (each row reindexed to the combined
columns and NaN-filled, preserving per-source order), so the combined row
count is the sum of the sources' row counts. -/
theorem load_all_ok (read_csv : String → ReadResult) (paths : List String)
    (dfs : List DataFrame) (h : paths.map read_csv = dfs.map ReadResult.ok) :
    (load_and_combine_data read_csv paths).1.rows =
        dfs.flatMap (fun df => df.rows.map
          (fun r => (reindexRow (unionCols dfs) df.cols r).map Cell.fill)) ∧
      (load_and_combine_data read_csv paths).1.rows.length =
        (dfs.map (fun df => df.rows.length)).sum := by
  have hc := collect_all_ok read_csv paths dfs h
  rw [load_eq, hc]
  cases dfs with
  | nil => simp [DataFrame.emptyDf]
  | cons d ds =>
    rw [if_neg (by simp)]
    have hrows :
        ((pd_concat (d :: ds)).fillna, (paths.flatMap (reportsOf read_csv))).1.rows =
          (d :: ds).flatMap (fun df => df.rows.map
            (fun r => (reindexRow (unionCols (d :: ds)) df.cols r).map Cell.fill)) := by
      show ((pd_concat (d :: ds)).rows.map (fun r => r.map Cell.fill)) = _
      rw [pd_concat]
      rw [List.map_flatMap]
      congr 1
      funext df
      rw [List.map_map]
      rfl
    refine ⟨hrows, ?_⟩
    have hfun : (List.length ∘ fun df : DataFrame =>
        List.map (fun r => List.map Cell.fill (reindexRow (unionCols (d :: ds)) df.cols r))
          df.rows) = (fun df : DataFrame => df.rows.length) := by
      funext df
      simp [Function.comp]
    rw [hrows, List.length_flatMap, hfun]

/-- Witness for C6: two identical successful sources give a four-row
combined table, the sum of two two-row sources. -/
theorem load_all_ok_witness :
    (["a.csv", "b.csv"].map read_csvAll = [dfA, dfA].map ReadResult.ok) ∧
      (load_and_combine_data read_csvAll ["a.csv", "b.csv"]).1.rows.length =
        ([dfA, dfA].map (fun df => df.rows.length)).sum :=
  ⟨by decide, (load_all_ok read_csvAll ["a.csv", "b.csv"] [dfA, dfA] (by decide)).2⟩

/-- C7: with exactly one unreachable source in the list, loading produces
the same combined table as loading the list without it — loading continues
past the missing file — and exactly one non-fatal warning is reported. -/
theorem load_one_missing (read_csv : String → ReadResult) (p : String)
    (l1 l2 : List String) (h1 : read_csv p = ReadResult.fileNotFound)
    (h2 : ∀ q ∈ l1 ++ l2, read_csv q ≠ ReadResult.fileNotFound) :
    (load_and_combine_data read_csv (l1 ++ p :: l2)).1 =
        (load_and_combine_data read_csv (l1 ++ l2)).1 ∧
      ((load_and_combine_data read_csv (l1 ++ p :: l2)).2.countP
          (fun r => Report.isWarning r)) = 1 := by
  constructor
  · rw [load_eq, load_eq, collect_skip read_csv l1 l2 p h1]
    by_cases he : (collectData read_csv (l1 ++ l2)).isEmpty <;> simp [he]
  · have hflat :
        (((l1 ++ p :: l2).flatMap (reportsOf read_csv)).countP
          (fun r => Report.isWarning r)) = 1 := by
      rw [List.flatMap_append, List.flatMap_cons, List.countP_append, List.countP_append]
      rw [warnings_zero read_csv l1 (fun q hq => h2 q (by simp [hq])),
        warnings_zero read_csv l2 (fun q hq => h2 q (by simp [hq]))]
      simp [reportsOf, h1, List.countP_cons, Report.isWarning]
    rw [load_eq]
    by_cases he : (collectData read_csv (l1 ++ p :: l2)).isEmpty
    · rw [if_pos he]
      show (((l1 ++ p :: l2).flatMap (reportsOf read_csv)) ++
          [Report.error noDataMessage]).countP (fun r => Report.isWarning r) = 1
      rw [List.countP_append, hflat]
      simp [List.countP_cons, Report.isWarning]
    · rw [if_neg he]
      exact hflat

/-- Witness for C7: with "missing.csv" unreachable between two good
sources, the table equals the two-source load and one warning is emitted. -/
theorem load_one_missing_witness :
    (load_and_combine_data read_csvOneMissing ["a.csv", "missing.csv", "b.csv"]).1 =
        (load_and_combine_data read_csvOneMissing ["a.csv", "b.csv"]).1 ∧
      ((load_and_combine_data read_csvOneMissing
          ["a.csv", "missing.csv", "b.csv"]).2.countP
        (fun r => Report.isWarning r)) = 1 :=
  load_one_missing read_csvOneMissing "missing.csv" ["a.csv"] ["b.csv"]
    (by decide) (by decide)

/-- C8: when no source loads successfully — including the empty source
list — the result is the explicit empty frame together with the fatal
no-data report among the emitted reports, distinguishable by the caller
from a query with zero matches. -/
theorem load_none_ok (read_csv : String → ReadResult) (paths : List String)
    (h : ∀ p ∈ paths, (read_csv p).isOk = false) :
    (load_and_combine_data read_csv paths).1 = DataFrame.emptyDf ∧
      Report.error noDataMessage ∈ (load_and_combine_data read_csv paths).2 := by
  have hc : collectData read_csv paths = [] := by
    rw [collectData, List.filterMap_eq_nil_iff]
    intro p hp
    have hok := h p hp
    cases hrp : read_csv p <;> simp [hrp, ReadResult.isOk] at hok ⊢
  rw [load_eq, hc]
  simp

/-- Witness for C8: with every file unreachable, the table is empty and the
fatal no-data report is present. -/
theorem load_none_ok_witness :
    (load_and_combine_data read_csvNone ["a.csv", "b.csv"]).1 = DataFrame.emptyDf ∧
      Report.error noDataMessage ∈
        (load_and_combine_data read_csvNone ["a.csv", "b.csv"]).2 :=
  load_none_ok read_csvNone ["a.csv", "b.csv"] (by decide)

/-- C9: whenever the Gemini call fails with any exception, the
summarization step returns the fixed fallback apology string rather than
propagating the failure. -/
theorem gemini_failure_fallback (gemini : String → Except String String)
    (query : String) (df : DataFrame) (e : String)
    (h : gemini (gemini_prompt query df) = Except.error e) :
    get_gemini_answer gemini query df = fallback_message := by
  unfold get_gemini_answer
  rw [h]

/-- Witness for C9: a call that always times out yields the fallback. -/
theorem gemini_failure_fallback_witness :
    get_gemini_answer geminiFail "helix" dfExample = fallback_message :=
  gemini_failure_fallback geminiFail "helix" dfExample "timeout" rfl

/-- C10 counterexample: the whitespace-padded query " x.z " includes the
row [" xyz "] although no cell contains " x.z " as a literal substring —
the raw query is matched as a regular expression, so the claim's
literal-containment "only if" fails as stated. -/
theorem search_untrimmed_regex_counterexample :
    [Cell.str " xyz "] ∈ (search_dataframe dfWs " x.z ").rows ∧
      rowMatchesSpec [Cell.str " xyz "] " x.z " = false := by
  decide

/-- C10 (amended): for a query that is non-blank after stripping and whose
lowercasing contains no regex metacharacter, `search_dataframe` filters the
table's rows by literal containment of the raw, untrimmed lowercased
query — leading and trailing whitespace in the query is significant. -/
theorem search_raw_query (df : DataFrame) (q : String)
    (h1 : ¬ pyStrip q = "") (h2 : ∀ c ∈ (pyLower q).data, c ∉ reMetachars) :
    (search_dataframe df q).rows = df.rows.filter (fun r => rowMatchesSpec r q) := by
  unfold search_dataframe
  rw [if_neg h1]
  show df.rows.filter (rowMatches (pyLower q)) = _
  exact List.filter_congr (fun r _ => rowMatches_eq_spec q r h2)

/-- Witness for C10: the query " security" (with a leading space) keeps
only the row whose cell has a space before "Security" — the whitespace in
the query is significant. -/
theorem search_raw_query_witness :
    (search_dataframe dfWs2 " security").rows =
        dfWs2.rows.filter (fun r => rowMatchesSpec r " security") ∧
      (search_dataframe dfWs2 " security").rows = [[Cell.str "Endpoint Security"]] :=
  ⟨search_raw_query dfWs2 " security" (by decide) (by decide), by decide⟩

end Pricebook
